import Mathlib

/-!
Verification development for the Steam Gaming Dashboard (`src/app.js`).

The dashboard is a browser single-page application.  The definitions below
are a shallow embedding of its data-fetching core, translated directly from
`src/app.js`: the fetch orchestrator (`fetchData`), the authenticated API
adapter (`fetchWithApi`), the public XML adapter
(`fetchWithXml` / `parseXmlProfile`), the background achievement enrichment
pipeline (`fetchAchievementsInBackground` / `fetchGameAchievements`), and the
games-list renderer (`renderGamesList`).  External effects (DOM, network,
analytics, sounds, toasts) are modelled as inputs and observation records;
JavaScript numbers are modelled as `ℚ` with `Option ℚ` where `NaN` can arise.
-/

namespace Steam

/-- Per-game achievement record built by `fetchGameAchievements`
(app.js:825-829): unlocked count, total count, rounded percentage. -/
structure AchStats where
  achieved : Nat
  total : Nat
  percent : Nat
deriving Repr, DecidableEq

/-- A member of `state.allGames`.  API-mode entries (app.js:626-635) carry an
application id; XML-mode entries (app.js:960-966) do not.  `hoursTotal` and
`hoursRecent` are `none` when the JavaScript value would be `NaN`.
`achievements` starts `null` and is filled in by the enrichment pipeline. -/
structure Game where
  appid : Option Nat
  name : String
  icon : String
  link : String
  hoursTotal : Option ℚ
  hoursRecent : Option ℚ
  achievements : Option AchStats
deriving Repr, DecidableEq

/-- One entry of `ownedData.response.games` from the authenticated API
(fields read at app.js:610-634).  The playtime fields may be absent in the
upstream JSON; the code reads them with `|| 0`. -/
structure ApiGame where
  appid : Nat
  name : String
  playtime_forever : Option Nat
  playtime_2weeks : Option Nat
  img_icon_url : String
deriving Repr, DecidableEq

/-- The player record from `GetPlayerSummaries` (app.js:575-646). -/
structure PlayerSummary where
  steamid : String
  personaname : String
  avatar : String
  personastate : Nat
  gameextrainfo : Option String
deriving Repr, DecidableEq

/-- The best-effort auxiliary data of `fetchWithApi` (app.js:581-600): each
field is `none` when its optional request failed or its body was unusable. -/
structure ExtraData where
  level : Option Nat
  xp : Option Nat
  badges : Option Nat
  friends : Option Nat
deriving Repr, DecidableEq

/-- The achievement aggregate written onto the profile by the enrichment
pipeline (app.js:764-770).  All five fields are written together. -/
structure AchAggregate where
  totalAchievements : Nat
  totalPossibleAchievements : Nat
  perfectGames : Nat
  gamesWithAchievements : Nat
  avgAchievementCompletion : ℚ
deriving Repr, DecidableEq

/-- The profile built by `fetchWithApi` (app.js:641-667).  The achievement
aggregate is `none` until the background enrichment publishes it. -/
structure ApiProfile where
  steamId64 : String
  steamId : String
  avatar : String
  onlineState : String
  stateMessage : String
  totalGames : Nat
  totalHours : ℚ
  recentHours : ℚ
  avgHours : ℚ
  mostPlayed : String
  mostPlayedHours : ℚ
  playedGames : Nat
  unplayedGames : Nat
  completionRate : ℚ
  accountValue : Nat
  steamLevel : Option Nat
  totalXP : Option Nat
  badgeCount : Option Nat
  friendCount : Option Nat
  achievementAggregate : Option AchAggregate
deriving Repr, DecidableEq

/-- One `<mostPlayedGame>` node of the public XML feed as seen through
`querySelector(..)?.textContent` (app.js:956-966): `none` models a missing
child element, `some s` its text content. -/
structure XmlGameNode where
  gameName : Option String
  gameLink : Option String
  gameIcon : Option String
  hoursPlayed : Option String
  hoursOnRecord : Option String
deriving Repr, DecidableEq

/-- The parsed XML document handed to `parseXmlProfile`, as produced by the
browser `DOMParser` (app.js:902-916).  `parserError` models the presence of a
`<parsererror>` node, `errorElem` a document-level `<error>` element, and the
string fields the `getText` results (empty string when the element is
missing, mirroring `getText` at app.js:935-938). -/
structure XmlDoc where
  parserError : Bool
  errorElem : Option String
  steamID64 : String
  steamID : String
  avatarFull : String
  avatarMedium : String
  avatarIcon : String
  onlineState : String
  stateMessage : String
  gameNodes : List XmlGameNode
deriving Repr, DecidableEq

/-- The profile built by `parseXmlProfile` (app.js:940-978).  `totalHours` and
`recentHours` are `none` when the JavaScript sum would be `NaN`. -/
structure XmlProfile where
  steamId64 : String
  steamId : String
  avatar : String
  onlineState : String
  stateMessage : String
  games : List Game
  totalGames : Nat
  totalHours : Option ℚ
  recentHours : Option ℚ
deriving Repr, DecidableEq

/-- The dynamic `state.data` slot holds either an API profile or an XML
profile depending on which adapter published last. -/
inductive ProfileData where
  | api (p : ApiProfile)
  | xml (p : XmlProfile)
deriving Repr, DecidableEq

/-- The slice of the global `state` object that the two source adapters
read and write: the published snapshot `data` and the games list. -/
structure AppModel where
  data : Option ProfileData
  allGames : List Game
deriving Repr, DecidableEq

/-! ### JavaScript primitives -/

/-- JavaScript `a || b` on strings: the empty string is falsy. -/
def jsOrString (a b : String) : String :=
  if a = "" then b else a

/-- Numeric value of a list of decimal digit characters. -/
def natOfDigits (l : List Char) : Nat :=
  l.foldl (fun a c => a * 10 + (c.toNat - 48)) 0

/-- JavaScript `String.prototype.replace(',', '')` with a string pattern
removes only the first occurrence of the comma (app.js:958). -/
def replaceFirstComma (l : List Char) : List Char :=
  match l with
  | [] => []
  | c :: r => if c = ',' then r else c :: replaceFirstComma r

/-- `replaceFirstComma` lifted to strings. -/
def jsReplaceFirstComma (s : String) : String :=
  String.mk (replaceFirstComma s.data)

/-- JavaScript `parseFloat`: skips leading whitespace, then parses the
longest prefix of the form `[+-] digits [. digits] [e|E [+-] digits]` and
ignores the rest of the string; `none` models `NaN` (no parsable prefix).
The special literal `Infinity` does not occur in upstream payloads and is
not modelled. -/
def jsParseFloat (s : String) : Option ℚ :=
  let cs := s.data.dropWhile Char.isWhitespace
  let sgn : ℚ := match cs with
    | '-' :: _ => -1
    | _ => 1
  let cs := match cs with
    | '-' :: r => r
    | '+' :: r => r
    | _ => cs
  let ip := cs.takeWhile Char.isDigit
  let cs := cs.dropWhile Char.isDigit
  let fp := match cs with
    | '.' :: r => r.takeWhile Char.isDigit
    | _ => []
  let cs := match cs with
    | '.' :: r => r.dropWhile Char.isDigit
    | _ => cs
  if ip.isEmpty && fp.isEmpty then none
  else
    let mant : ℚ := (natOfDigits ip : ℚ) + (natOfDigits fp : ℚ) / (10 : ℚ) ^ fp.length
    let e : ℤ := match cs with
      | c :: r =>
        if c = 'e' ∨ c = 'E' then
          let es : ℤ := match r with
            | '-' :: _ => -1
            | _ => 1
          let r2 := match r with
            | '-' :: t => t
            | '+' :: t => t
            | _ => r
          let ed := r2.takeWhile Char.isDigit
          if ed.isEmpty then 0 else es * (natOfDigits ed : ℤ)
        else 0
      | [] => 0
    some (sgn * mant * (10 : ℚ) ^ e)

/-- JavaScript addition where `NaN` (modelled as `none`) poisons the sum. -/
def nanAdd (a b : Option ℚ) : Option ℚ :=
  match a, b with
  | some x, some y => some (x + y)
  | _, _ => none

/-! ### Authenticated API adapter (`fetchWithApi`, app.js:543-683) -/

/-- `getOnlineState` (app.js:877-880): fixed ordered table with `offline`
fallback. -/
def getOnlineState (n : Nat) : String :=
  (["offline", "online", "busy", "away", "snooze", "looking-to-trade",
    "looking-to-play"].get? n).getD "offline"

/-- `getStateMessage` (app.js:882-885). -/
def getStateMessage (n : Nat) : String :=
  (["Offline", "Online", "Busy", "Away", "Snooze", "Looking to Trade",
    "Looking to Play"].get? n).getD "Offline"

/-- All-time minutes of an owned game, read as `game.playtime_forever || 0`
(app.js:611). -/
def pfMinutes (g : ApiGame) : Nat :=
  g.playtime_forever.getD 0

/-- Two-week minutes of an owned game, read as `game.playtime_2weeks || 0`
(app.js:612). -/
def p2Minutes (g : ApiGame) : Nat :=
  g.playtime_2weeks.getD 0

/-- `[...games].sort((a, b) => (b.playtime_forever||0) - (a.playtime_forever||0))`
(app.js:621-623): stable descending sort by all-time minutes. -/
def sortByPlaytime (games : List ApiGame) : List ApiGame :=
  games.mergeSort (fun a b => pfMinutes b ≤ pfMinutes a)

/-- The games-list entries built by `fetchWithApi` from the sorted owned
games (app.js:626-635). -/
def apiGamesView (games : List ApiGame) : List Game :=
  (sortByPlaytime games).map fun g =>
    { appid := some g.appid
      name := g.name
      icon := if g.img_icon_url = "" then ""
        else "https://media.steampowered.com/steamcommunity/public/images/apps/"
          ++ toString g.appid ++ "/" ++ g.img_icon_url ++ ".jpg"
      link := "https://store.steampowered.com/app/" ++ toString g.appid
      hoursTotal := some ((pfMinutes g : ℚ) / 60)
      hoursRecent := some ((p2Minutes g : ℚ) / 60)
      achievements := none }

/-- The profile construction of `fetchWithApi` (app.js:602-667): aggregate
sums over the entire owned library, played/unplayed split, completion rate,
account-value heuristic, most-played game from the descending sort. -/
def buildApiProfile (player : PlayerSummary) (games : List ApiGame)
    (extra : ExtraData) : ApiProfile :=
  let totalMinutes : Nat := games.foldl (fun acc g => acc + pfMinutes g) 0
  let recentMinutes : Nat := games.foldl (fun acc g => acc + p2Minutes g) 0
  let playedGamesCount : Nat := (games.filter (fun g => 0 < pfMinutes g)).length
  let unplayedGamesCount : Nat := (games.filter (fun g => ¬ 0 < pfMinutes g)).length
  let sorted := sortByPlaytime games
  let completionRate : ℚ :=
    if 0 < games.length then ((playedGamesCount : ℚ) / games.length) * 100 else 0
  { steamId64 := player.steamid
    steamId := player.personaname
    avatar := player.avatar
    onlineState := getOnlineState player.personastate
    stateMessage := match player.gameextrainfo with
      | some info => "Playing " ++ info
      | none => getStateMessage player.personastate
    totalGames := games.length
    totalHours := (totalMinutes : ℚ) / 60
    recentHours := (recentMinutes : ℚ) / 60
    avgHours := if 0 < games.length
      then ((totalMinutes : ℚ) / 60) / games.length else 0
    mostPlayed := ((sorted.head?).map ApiGame.name).getD "N/A"
    mostPlayedHours := match sorted.head? with
      | some g => (pfMinutes g : ℚ) / 60
      | none => 0
    playedGames := playedGamesCount
    unplayedGames := unplayedGamesCount
    completionRate := completionRate
    accountValue := games.length * 10
    steamLevel := extra.level
    totalXP := extra.xp
    badgeCount := extra.badges
    friendCount := extra.friends
    achievementAggregate := none }

/-- The `GetOwnedGames` body after `json()`: `hasResponse` models the
`ownedData.response` envelope check (app.js:571), `games` the list read as
`ownedData.response.games || []` (app.js:602). -/
structure OwnedResp where
  hasResponse : Bool
  games : List ApiGame
deriving Repr, DecidableEq

/-- The `GetPlayerSummaries` body after `json()`: `hasResponse` models the
`playerData.response` envelope check (app.js:571), `player` the record
`playerData.response.players?.[0]` (app.js:575). -/
structure PlayerResp where
  hasResponse : Bool
  player : Option PlayerSummary
deriving Repr, DecidableEq

/-- Outcome of the two load-bearing requests of `fetchWithApi`.
`transportError` models a rejected `Promise.all` (one of the two required
`fetchWithTimeout` calls threw); otherwise the `ok` flags of both responses
are given, and `none` for a body models a `json()` failure. -/
inductive ApiInput where
  | transportError
  | responses (ownedOk playerOk : Bool) (owned : Option OwnedResp)
      (player : Option PlayerResp)
deriving Repr, DecidableEq

/-- `fetchWithApi` (app.js:543-683) as a transition of the published
snapshot: every failure path throws before `state.data` is assigned
(app.js:562-577), so the prior snapshot survives; on success the new
profile and games list are published and `true` is returned. -/
def fetchWithApiM (s : AppModel) (inp : ApiInput) (extra : ExtraData) :
    AppModel × Bool :=
  match inp with
  | .transportError => (s, false)
  | .responses ownedOk playerOk owned player =>
    if ¬ (ownedOk && playerOk) then (s, false)
    else match owned, player with
      | some od, some pd =>
        if od.hasResponse && pd.hasResponse then
          match pd.player with
          | some pl =>
            ({ s with data := some (.api (buildApiProfile pl od.games extra))
                      allGames := apiGamesView od.games }, true)
          | none => (s, false)
        else (s, false)
      | _, _ => (s, false)

/-! ### Public XML adapter (`fetchWithXml` / `parseXmlProfile`,
app.js:887-979) -/

/-- The `hoursPlayed` text of a game node through
`node.querySelector('hoursPlayed')?.textContent || '0'` (app.js:957). -/
def hoursPlayedText (n : XmlGameNode) : String :=
  match n.hoursPlayed with
  | none => "0"
  | some s => jsOrString s "0"

/-- The `hoursOnRecord` text of a game node through
`node.querySelector('hoursOnRecord')?.textContent?.replace(',', '') || '0'`
(app.js:958): only the first comma is removed before the `|| '0'` check. -/
def hoursOnRecordText (n : XmlGameNode) : String :=
  match n.hoursOnRecord with
  | none => "0"
  | some s => jsOrString (jsReplaceFirstComma s) "0"

/-- The `Game` entry pushed for one XML game node (app.js:960-966). -/
def xmlGameEntry (n : XmlGameNode) : Game :=
  { appid := none
    name := (n.gameName.map (fun s => jsOrString s "Unknown Game")).getD "Unknown Game"
    link := (n.gameLink.map (fun s => jsOrString s "#")).getD "#"
    icon := (n.gameIcon.map (fun s => jsOrString s "")).getD ""
    hoursTotal := jsParseFloat (hoursOnRecordText n)
    hoursRecent := jsParseFloat (hoursPlayedText n)
    achievements := none }

/-- `parseXmlProfile` (app.js:934-979): extracts identity and presence
fields, builds the games list, and sums `totalHours` / `recentHours` over
the returned game nodes. -/
def parseXmlProfile (doc : XmlDoc) : XmlProfile :=
  let games := doc.gameNodes.map xmlGameEntry
  { steamId64 := doc.steamID64
    steamId := doc.steamID
    avatar := jsOrString doc.avatarFull (jsOrString doc.avatarMedium doc.avatarIcon)
    onlineState := doc.onlineState
    stateMessage := doc.stateMessage
    games := games
    totalGames := doc.gameNodes.length
    totalHours := games.foldl (fun acc g => nanAdd acc g.hoursTotal) (some 0)
    recentHours := games.foldl (fun acc g => nanAdd acc g.hoursRecent) (some 0) }

/-- The HTTP response seen by `fetchWithXml`: status flag, raw body text,
and the `DOMParser` result on that text (app.js:892-903). -/
structure XmlResponse where
  ok : Bool
  text : String
  doc : XmlDoc
deriving Repr, DecidableEq

/-- `fetchWithXml` (app.js:887-932) as a transition of the published
snapshot.  `none` for the response models a transport failure (network
error or timeout).  Every failure — non-ok status, empty or whitespace-only
body, parser error, or a document-level `<error>` element — throws before
`state.data = profile` (app.js:917), so the prior snapshot survives; the
internal `catch` then reports the error without rethrowing. -/
def fetchWithXmlM (s : AppModel) (resp : Option XmlResponse) :
    AppModel × Bool :=
  match resp with
  | none => (s, false)
  | some r =>
    if ¬ r.ok then (s, false)
    else if r.text.trim = "" then (s, false)
    else if r.doc.parserError then (s, false)
    else match r.doc.errorElem with
      | some _ => (s, false)
      | none =>
        let p := parseXmlProfile r.doc
        ({ s with data := some (.xml p), allGames := p.games }, true)

/-! ### Fetch orchestrator (`fetchData`, app.js:471-520; `setApiKey`,
app.js:437-449) -/

/-- The orchestrator slice of the global `state` object (app.js:295-314),
polymorphic in the published payload: the orchestrator never inspects the
profile it publishes. -/
structure OrchState (π : Type) where
  apiKey : Bool
  apiMode : Bool
  apiFailCount : Nat
  isLoading : Bool
  achievementFetchId : Nat
  data : Option π
deriving Repr, DecidableEq

/-- Observable collaborator calls of one `fetchData` invocation: whether the
authenticated and the XML adapters were attempted, how often the credential
prompt `showApiKeyPrompt` was invoked, and whether the transient
"API error, using basic mode" toast was shown. -/
structure FetchObs where
  apiAttempted : Bool
  xmlAttempted : Bool
  promptShown : Nat
  fallbackToastShown : Bool
deriving Repr, DecidableEq

/-- The silent observation record of a skipped `fetchData` call. -/
def noObs : FetchObs :=
  { apiAttempted := false, xmlAttempted := false, promptShown := 0
    fallbackToastShown := false }

/-- The XML tail of `fetchData` (app.js:508-511 together with the body of
`fetchWithXml`): the adapter is attempted; on failure it reports the error
internally and the snapshot is untouched; `isLoading` is cleared by the
`finally` either way. -/
def xmlTail {π : Type} (s : OrchState π) (apiAtt toast : Bool)
    (xmlOutcome : Option π) : OrchState π × FetchObs :=
  match xmlOutcome with
  | some p =>
    ({ s with data := some p, isLoading := false },
     { apiAttempted := apiAtt, xmlAttempted := true, promptShown := 0
       fallbackToastShown := toast })
  | none =>
    ({ s with isLoading := false },
     { apiAttempted := apiAtt, xmlAttempted := true, promptShown := 0
       fallbackToastShown := toast })

/-- `fetchData` (app.js:471-520) for one cycle.  `apiOutcome` is the result
of `fetchWithApi` (`none` = it threw), `xmlOutcome` the published profile of
`fetchWithXml` (`none` = it failed internally).  A call while `isLoading`
returns before touching any state (app.js:473-476); otherwise the cycle
token `achievementFetchId` is incremented (app.js:480), the authenticated
adapter is tried when `apiMode` and a key are set, a failure increments
`apiFailCount`, and at `apiFailCount >= 2` the credential prompt is shown
and the cycle stops with no XML fallback (app.js:497-501); `state.apiMode`
is not modified on that path. -/
def fetchDataM {π : Type} (s : OrchState π) (apiOutcome : Option π)
    (xmlOutcome : Option π) : OrchState π × FetchObs :=
  if s.isLoading then (s, noObs)
  else
    let s1 := { s with isLoading := true
                       achievementFetchId := s.achievementFetchId + 1 }
    if s1.apiMode && s1.apiKey then
      match apiOutcome with
      | some p =>
        ({ s1 with data := some p, isLoading := false },
         { apiAttempted := true, xmlAttempted := false, promptShown := 0
           fallbackToastShown := false })
      | none =>
        let s2 := { s1 with apiFailCount := s1.apiFailCount + 1 }
        if 2 ≤ s2.apiFailCount then
          ({ s2 with isLoading := false },
           { apiAttempted := true, xmlAttempted := false, promptShown := 1
             fallbackToastShown := false })
        else xmlTail s2 true true xmlOutcome
    else xmlTail s1 false false xmlOutcome

/-- `setApiKey` (app.js:437-449): a non-empty trimmed key enables API mode
and resets the failure counter; clearing the key disables API mode.  This is
the only place `state.apiMode` is ever set to `false`. -/
def setApiKeyM {π : Type} (s : OrchState π) (keyPresent : Bool) :
    OrchState π :=
  if keyPresent then
    { s with apiKey := true, apiMode := true, apiFailCount := 0 }
  else
    { s with apiKey := false, apiMode := false }

/-! ### Achievement enrichment pipeline (`fetchAchievementsInBackground`,
app.js:685-807) -/

/-- `CONFIG.ACHIEVEMENT_PARALLEL` (app.js:288). -/
def ACHIEVEMENT_PARALLEL : Nat := 10

/-- Bounded recursion for `chunkList`: the loop
`for (let i = 0; i < totalGames; i += CONFIG.ACHIEVEMENT_PARALLEL)` runs at
most `totalGames` iterations, so the list length is a sufficient fuel. -/
def chunkListFuel {α : Type} (n : Nat) : Nat → List α → List (List α)
  | _, [] => []
  | 0, _ :: _ => []
  | fuel + 1, x :: xs => ((x :: xs).take n) :: chunkListFuel n fuel (xs.drop (n - 1))

/-- The batch decomposition of the loop
`for (let i = 0; i < totalGames; i += CONFIG.ACHIEVEMENT_PARALLEL)` with
`slice(i, i + CONFIG.ACHIEVEMENT_PARALLEL)` (app.js:722-729). -/
def chunkList {α : Type} (n : Nat) (l : List α) : List (List α) :=
  chunkListFuel n l.length l

/-- The mutable state the enrichment run touches: the four running
accumulators (app.js:711-714), the shared games list, and the published
profile's achievement slot.  `data = none` models `state.data == null`;
`data = some agg` models a present profile whose aggregate fields are
`agg` (all-null before the first batch lands). -/
structure EnrichSt where
  totalAchievements : Nat
  totalPossible : Nat
  perfectGames : Nat
  gamesWithAchievements : Nat
  allGames : List Game
  data : Option (Option AchAggregate)
deriving Repr, DecidableEq

/-- `state.allGames.findIndex(g => g.appid === game.appid)` followed by the
in-place achievements assignment (app.js:755-758): the first entry with the
matching application id gets the fetched record. -/
def setAch (games : List Game) (appid : Nat) (a : AchStats) : List Game :=
  match games with
  | [] => []
  | g :: r =>
    if g.appid = some appid then { g with achievements := some a } :: r
    else g :: setAch r appid a

/-- Processing of one per-game result inside `batchResults.forEach`
(app.js:742-760): a `null` result or a zero total is skipped entirely;
otherwise the accumulators grow, the game counts as perfect exactly when
`achData.achieved === achData.total` (under the enclosing `total > 0`
guard), and the game's `achievements` field is written in place. -/
def processResult (s : EnrichSt) (p : Nat × Option AchStats) : EnrichSt :=
  match p.2 with
  | none => s
  | some a =>
    if 0 < a.total then
      { s with totalAchievements := s.totalAchievements + a.achieved
               totalPossible := s.totalPossible + a.total
               gamesWithAchievements := s.gamesWithAchievements + 1
               perfectGames := if a.achieved = a.total
                 then s.perfectGames + 1 else s.perfectGames
               allGames := setAch s.allGames p.1 a }
    else s

/-- The profile-aggregate publication after a batch (app.js:763-774): when
`state.data` is present, all five aggregate fields are overwritten with the
running totals, `avgAchievementCompletion` being
`(totalAchievements / totalPossible) * 100` when any game had data. -/
def publishAgg (s : EnrichSt) : EnrichSt :=
  match s.data with
  | none => s
  | some _ =>
    { s with data := some (some
        { totalAchievements := s.totalAchievements
          totalPossibleAchievements := s.totalPossible
          perfectGames := s.perfectGames
          gamesWithAchievements := s.gamesWithAchievements
          avgAchievementCompletion :=
            if 0 < s.gamesWithAchievements
            then ((s.totalAchievements : ℚ) / s.totalPossible) * 100
            else 0 }) }

/-- One full batch iteration body after the two token checks passed
(app.js:742-777): fold the per-game results, then publish the aggregate. -/
def processBatch (s : EnrichSt) (batch : List (Nat × Option AchStats)) :
    EnrichSt :=
  publishAgg (batch.foldl processResult s)

/-- The batch loop of `fetchAchievementsInBackground` (app.js:722-783).
`captured` is the `fetchId` argument the run received; `curTok k` is the
value of `state.achievementFetchId` at the k-th token read of the run (the
token may change at every `await`, so it is modelled as an arbitrary
function of the read index).  Batch `i` reads the token at index `2*i`
before dispatching (app.js:724) and at index `2*i + 1` after its
`Promise.all` completes (app.js:736); on either mismatch the run returns
with the state exactly as it was. -/
def enrichLoop (captured : Nat) (curTok : Nat → Nat) :
    List (List (Nat × Option AchStats)) → Nat → EnrichSt → EnrichSt
  | [], _, s => s
  | b :: rest, i, s =>
    if curTok (2 * i) ≠ captured then s
    else if curTok (2 * i + 1) ≠ captured then s
    else enrichLoop captured curTok rest (i + 1) (processBatch s b)

/-- The whole enrichment run over the filtered games, given the per-game
fetch results: batches of `CONFIG.ACHIEVEMENT_PARALLEL` games. -/
def enrichRun (captured : Nat) (curTok : Nat → Nat)
    (results : List (Nat × Option AchStats)) (s : EnrichSt) : EnrichSt :=
  enrichLoop captured curTok (chunkList ACHIEVEMENT_PARALLEL results) 0 s

/-! ### Enrichment start guard and cancellation flag lifecycle
(app.js:471-481, 685-708, 802-806) -/

/-- The two coordination fields shared between `fetchData` and
`fetchAchievementsInBackground`. -/
structure BgState where
  achievementFetchId : Nat
  isFetchingAchievements : Bool
deriving Repr, DecidableEq

/-- The cycle-token increment performed on entry to `fetchData`
(app.js:478-480). -/
def startFetchCycle (s : BgState) : BgState :=
  { s with achievementFetchId := s.achievementFetchId + 1 }

/-- The entry of `fetchAchievementsInBackground` (app.js:685-708) for a
game list: when no game has positive all-time playtime the call publishes a
zeroed aggregate and never starts a run; otherwise the single-flight guard
`state.isFetchingAchievements` refuses to start when the flag is set, and
starting sets the flag.  The returned boolean reports whether a run
started. -/
def bgInvoke (s : BgState) (games : List ApiGame) : BgState × Bool :=
  if (games.filter (fun g => 0 < pfMinutes g)).length = 0 then (s, false)
  else if s.isFetchingAchievements then (s, false)
  else ({ s with isFetchingAchievements := true }, true)

/-- The `finally` clause of `fetchAchievementsInBackground`
(app.js:802-806), executed when the run exits for any reason: the flag is
cleared only when the run's captured `fetchId` still equals the current
`state.achievementFetchId`; a superseded run leaves the flag as it is. -/
def bgFinally (s : BgState) (captured : Nat) : BgState :=
  if captured = s.achievementFetchId then
    { s with isFetchingAchievements := false }
  else s

/-! ### Games-list renderer (`renderGamesList`, app.js:1101-1163) -/

/-- JavaScript runtime errors raised while rendering. -/
inductive JsError where
  | referenceError (name : String)
deriving Repr, DecidableEq

/-- `Math.round` on a JavaScript number: round half towards positive
infinity. -/
def jsRound (q : ℚ) : ℤ :=
  ⌊q + 1 / 2⌋

/-- Number-to-string conversion (`toFixed`, `toString`).  The exact decimal
formatting is abstracted to `toString` of the rational: for every non-empty
game list the renderer aborts with a `ReferenceError` before any formatted
string becomes observable, and the empty-list branch contains no numbers. -/
def numText (q : ℚ) : String :=
  toString q

/-- `formatNumber` (app.js:1631-1636). -/
def formatNumberM (q : ℚ) : String :=
  if 1000 ≤ q then numText (q / 1000) ++ "k" else numText (jsRound q : ℚ)

/-- HTML escaping of one character as performed by the
`div.textContent`/`innerHTML` round trip in `escapeHtml`
(app.js:1638-1643): ampersand and angle brackets are entity-encoded. -/
def escapeChar (c : Char) : String :=
  if c = '&' then "&amp;"
  else if c = '<' then "&lt;"
  else if c = '>' then "&gt;"
  else String.mk [c]

/-- `escapeHtml` (app.js:1638-1643); a falsy (empty) string maps to
itself. -/
def escapeHtmlM (s : String) : String :=
  if s = "" then "" else String.join (s.data.map escapeChar)

/-- `game.hoursTotal || 0` and `game.hoursRecent || 0`: `undefined` and
`NaN` (both modelled as `none`) are falsy and give `0`. -/
def orZero (h : Option ℚ) : ℚ :=
  h.getD 0

/-- The identifiers bound in scopes enclosing the template literal of the
games-list `map` callback (app.js:1112-1139): the callback parameter and
its two local constants, the locals of `renderGamesList`, and the
module-level declarations of the IIFE.  The script runs under
`'use strict'` (app.js:6) and declares no variable named `index` in any of
these scopes, so that name is absent here. -/
def renderCallbackScope : List String :=
  ["game", "achievementHtml", "hoursHtml",
   "games", "displayCount", "gamesToShow",
   "Analytics", "CONFIG", "state", "elements",
   "escapeHtml", "formatNumber", "getSortedGames", "renderGamesList",
   "renderProfile", "showToast", "showError", "playSound",
   "fetchData", "fetchWithApi", "fetchWithXml", "parseXmlProfile",
   "fetchAchievementsInBackground", "fetchGameAchievements",
   "updateAchievementStats", "capitalizeFirst", "sleep", "fetchWithTimeout",
   "getOnlineState", "getStateMessage"]

/-- Strict-mode identifier resolution: reading a name that no enclosing
scope binds raises a `ReferenceError`. -/
def lookupIdent (v : String) : Except JsError Unit :=
  if renderCallbackScope.contains v then Except.ok ()
  else Except.error (JsError.referenceError v)

/-- The `achievementHtml` constant of the map callback (app.js:1113-1118). -/
def achievementHtmlOf (g : Game) : String :=
  match g.achievements with
  | none => ""
  | some a =>
    "<div class=\"game-achievements "
      ++ (if a.percent = 100 then "perfect" else "") ++ "\">"
      ++ "<span class=\"ach-percent\">" ++ toString a.percent ++ "%</span>"
      ++ "<span class=\"ach-count\">" ++ toString a.achieved ++ "/"
      ++ toString a.total ++ "</span></div>"

/-- The `hoursHtml` constant of the map callback (app.js:1120-1128),
branching on `state.sortBy`. -/
def hoursHtmlOf (sortBy : String) (g : Game) : String :=
  if sortBy = "recent" then
    "<span class=\"game-hours-value\">" ++ numText (orZero g.hoursRecent)
      ++ "h</span> last 2 weeks"
  else if sortBy = "completion" then
    "<span class=\"game-hours-value\">"
      ++ formatNumberM (jsRound (orZero g.hoursTotal) : ℚ)
      ++ "h</span> played"
  else
    "<span class=\"game-hours-value\">"
      ++ formatNumberM (jsRound (orZero g.hoursTotal) : ℚ)
      ++ "h</span> total"

/-- The map callback of `renderGamesList` (app.js:1112-1139).  The two
local constants are computed first; the returned template literal then
evaluates its interpolated expressions left to right:
`escapeHtml(game.link)` succeeds, after which the template reads the free
variable `index` (app.js:1131), which no enclosing scope binds — under
strict mode this raises a `ReferenceError` before the rest of the markup is
produced.  The `ok` branch (never reached for any game) assembles the
remaining markup with a placeholder where `index` would be interpolated. -/
def gameItemHtml (sortBy : String) (g : Game) : Except JsError String :=
  let achievementHtml := achievementHtmlOf g
  let hoursHtml := hoursHtmlOf sortBy g
  let href := escapeHtmlM g.link
  match lookupIdent "index" with
  | Except.error e => Except.error e
  | Except.ok _ =>
    Except.ok ("<a href=\"" ++ href
      ++ "\" target=\"_blank\" rel=\"noopener\" class=\"game-item\" data-game-index=\"?\">"
      ++ "<img class=\"game-icon\" src=\"" ++ escapeHtmlM g.icon
      ++ "\" alt=\"" ++ escapeHtmlM g.name ++ "\" loading=\"lazy\">"
      ++ "<div class=\"game-info\"><div class=\"game-name\">"
      ++ escapeHtmlM g.name ++ "</div><div class=\"game-hours\">"
      ++ hoursHtml ++ "</div></div>" ++ achievementHtml ++ "</a>")

/-- `renderGamesList` (app.js:1101-1140) on the list of games selected for
display (`gamesToShow`): the empty list renders the static no-games
placeholder; otherwise the map callback runs over the games and the results
are joined.  The first exception thrown by the callback propagates. -/
def renderGamesList (sortBy : String) (gamesToShow : List Game) :
    Except JsError String :=
  if gamesToShow.isEmpty then
    Except.ok "<div class=\"no-games\">No games found</div>"
  else
    (gamesToShow.mapM (gameItemHtml sortBy)).map (fun l => String.join l)

/-! ### Outbound request inventory -/

/-- The purposes of the outbound HTTP requests the program issues. -/
inductive ReqKind where
  | ownedGames
  | playerSummary
  | steamLevel
  | badges
  | friendList
  | xmlProfile
  | achievementDetail
deriving Repr, DecidableEq

/-- One outbound request call site with its explicit timeout, if any. -/
structure OutboundRequest where
  kind : ReqKind
  timeoutMs : Option Nat
deriving Repr, DecidableEq

/-- Every `fetch` call site of app.js with the timeout it is issued with:
the five API fetches go through `fetchWithTimeout` with 20000 ms for the
two load-bearing ones and 10000 ms for the three best-effort ones
(app.js:554-560), the XML profile fetch uses 20000 ms (app.js:892), and the
per-game achievement detail request of `fetchGameAchievements` calls plain
`fetch` with no timeout (app.js:812). -/
def outboundRequests : List OutboundRequest :=
  [⟨ReqKind.ownedGames, some 20000⟩,
   ⟨ReqKind.playerSummary, some 20000⟩,
   ⟨ReqKind.steamLevel, some 10000⟩,
   ⟨ReqKind.badges, some 10000⟩,
   ⟨ReqKind.friendList, some 10000⟩,
   ⟨ReqKind.xmlProfile, some 20000⟩,
   ⟨ReqKind.achievementDetail, none⟩]

/-! ### Claim C1 -/

/-- C1: if the enrichment run's captured cycle token disagrees with the
orchestrator's current token either at the check before dispatching a batch
or at the check after the batch completes, the run returns with the shared
state — Profile achievement-aggregate fields and `Game.achievements` fields
alike — exactly as it was: the batch in hand and all remaining batches are
discarded without any further mutation. -/
theorem c1_token_mismatch_halts_enrichment
    (captured : Nat) (curTok : Nat → Nat) (b : List (Nat × Option AchStats))
    (rest : List (List (Nat × Option AchStats))) (i : Nat) (s : EnrichSt)
    (h : curTok (2 * i) ≠ captured ∨ curTok (2 * i + 1) ≠ captured) :
    enrichLoop captured curTok (b :: rest) i s = s := by
  rcases h with h | h
  · simp [enrichLoop, h]
  · by_cases h0 : curTok (2 * i) = captured
    · simp [enrichLoop, h0, h]
    · simp [enrichLoop, h0]

/-- A state for the C1 witness: empty accumulators, a published profile with
a still-null achievement aggregate. -/
def c1state : EnrichSt :=
  ⟨0, 0, 0, 0, [], some none⟩

/-- Witness for C1: a run captured at token 1 while the current token is
already 2 leaves the state untouched. -/
theorem c1_token_mismatch_halts_enrichment_witness :
    enrichLoop 1 (fun _ => 2) [[(5, some ⟨1, 2, 50⟩)]] 0 c1state = c1state :=
  c1_token_mismatch_halts_enrichment 1 (fun _ => 2) [(5, some ⟨1, 2, 50⟩)]
    [] 0 c1state (Or.inl (by decide))

/-! ### Claim C2 -/

/-- A one-game library with positive playtime, so the enrichment filter is
non-empty. -/
def c2games : List ApiGame :=
  [⟨400, "Portal", some 60, some 0, ""⟩]

/-- Initial coordination state: token 0, no enrichment running. -/
def c2s0 : BgState := ⟨0, false⟩

/-- Cycle N enters `fetchData`: token becomes 1. -/
def c2s1 : BgState := startFetchCycle c2s0

/-- Cycle N's enrichment invocation: the run starts (captured token 1) and
sets the single-flight flag. -/
def c2run1 : BgState × Bool := bgInvoke c2s1 c2games

/-- Cycle N+1 enters `fetchData` while cycle N's run is mid-batch: token
becomes 2. -/
def c2s2 : BgState := startFetchCycle c2run1.1

/-- Cycle N's run observes the token mismatch, returns, and its `finally`
clause runs with captured token 1 against current token 2. -/
def c2s3 : BgState := bgFinally c2s2 1

/-- Cycle N+1's enrichment invocation over the same non-empty filtered game
set, after the superseded run has fully stopped. -/
def c2run2 : BgState × Bool := bgInvoke c2s3 c2games

/-- C2 exhibits a code bug: cycle N's run did start, but after it stops on
the token mismatch its `finally` clause (app.js:803-805) skips clearing
`isFetchingAchievements` because the captured token no longer matches, so
the flag stays `true` although no enrichment run is executing, and the
invocation for cycle N+1 — with a non-empty filtered game set — is refused
by the single-flight guard instead of starting. -/
theorem c2_superseded_run_wedges_guard :
    c2run1.2 = true ∧ c2s3.isFetchingAchievements = true ∧ c2run2.2 = false := by
  decide

/-! ### Claim C3 -/

/-- Initial orchestrator state for C3: API mode on, key configured, no
failures yet, idle. -/
def c3s0 : OrchState Nat :=
  ⟨true, true, 0, false, 0, none⟩

/-- First cycle: the authenticated adapter fails, the XML fallback
succeeds. -/
def c3r1 : OrchState Nat × FetchObs := fetchDataM c3s0 none (some 11)

/-- Second cycle: the authenticated adapter fails again. -/
def c3r2 : OrchState Nat × FetchObs := fetchDataM c3r1.1 none (some 12)

/-- Counterexample to C3: after the second consecutive authenticated
failure the credential prompt is shown, but `state.apiMode` is still
`true` — `fetchData` (app.js:497-501) never sets it to `false`, so the
claim's "disables the authModeEnabled flag (sets it to false)" is wrong. -/
theorem c3_second_failure_leaves_apiMode_enabled :
    c3r2.2.promptShown = 1 ∧ c3r2.1.apiMode = true := by
  decide

/-- C3 (amended): starting from API mode with a configured key and a zero
failure counter, the first authenticated failure increments the counter and
falls through to the public-source attempt without any prompt; the second
consecutive failure brings the counter to 2, invokes the credential-prompt
collaborator exactly once, and stops without attempting the XML fallback
for that cycle — while `authModeEnabled` (`state.apiMode`) is left
unchanged, becoming `false` only when the user clears the credential
through `setApiKey`. -/
theorem c3_two_failures_prompt_once_apiMode_unchanged
    (π : Type) (s : OrchState π) (x1 x2 : Option π)
    (hm : s.apiMode = true) (hk : s.apiKey = true)
    (hf : s.apiFailCount = 0) (hl : s.isLoading = false) :
    ((fetchDataM s none x1).2.promptShown = 0 ∧
      (fetchDataM s none x1).2.xmlAttempted = true) ∧
    (fetchDataM (fetchDataM s none x1).1 none x2).2.promptShown = 1 ∧
    (fetchDataM (fetchDataM s none x1).1 none x2).2.xmlAttempted = false ∧
    (fetchDataM (fetchDataM s none x1).1 none x2).1.apiMode = true ∧
    (fetchDataM (fetchDataM s none x1).1 none x2).1.apiFailCount = 2 ∧
    (setApiKeyM (fetchDataM (fetchDataM s none x1).1 none x2).1 false).apiMode
      = false := by
  rcases x1 with _ | p <;>
    simp [fetchDataM, xmlTail, setApiKeyM, hm, hk, hf, hl]

/-- Witness for the amended C3 at the concrete two-failure trace. -/
theorem c3_two_failures_prompt_once_witness :
    ((fetchDataM c3s0 none (some 11)).2.promptShown = 0 ∧
      (fetchDataM c3s0 none (some 11)).2.xmlAttempted = true) ∧
    (fetchDataM (fetchDataM c3s0 none (some 11)).1 none (some 12)).2.promptShown = 1 ∧
    (fetchDataM (fetchDataM c3s0 none (some 11)).1 none (some 12)).2.xmlAttempted = false ∧
    (fetchDataM (fetchDataM c3s0 none (some 11)).1 none (some 12)).1.apiMode = true ∧
    (fetchDataM (fetchDataM c3s0 none (some 11)).1 none (some 12)).1.apiFailCount = 2 ∧
    (setApiKeyM (fetchDataM (fetchDataM c3s0 none (some 11)).1 none (some 12)).1
      false).apiMode = false :=
  c3_two_failures_prompt_once_apiMode_unchanged Nat c3s0 (some 11) (some 12)
    rfl rfl rfl rfl

/-! ### Claim C4 -/

/-- Frame lemma for the authenticated adapter: every failing run of
`fetchWithApi` leaves the whole app model untouched. -/
theorem fetchWithApiM_fail_frame (s : AppModel) (inp : ApiInput)
    (extra : ExtraData) (h : (fetchWithApiM s inp extra).2 = false) :
    (fetchWithApiM s inp extra).1 = s := by
  rcases inp with _ | ⟨oOk, pOk, owned, player⟩
  · rfl
  · by_cases h1 : (oOk && pOk) = true
    · rcases owned with _ | od
      · simp [fetchWithApiM, h1]
      · rcases player with _ | pd
        · simp [fetchWithApiM, h1]
        · by_cases h2 : (od.hasResponse && pd.hasResponse) = true
          · rcases hp : pd.player with _ | pl
            · simp [fetchWithApiM, h1, h2, hp]
            · exfalso
              simp [fetchWithApiM, h1, h2, hp] at h
          · simp [fetchWithApiM, h1, h2]
    · simp [fetchWithApiM, h1]

/-- Frame lemma for the XML adapter: every failing run of `fetchWithXml`
leaves the whole app model untouched. -/
theorem fetchWithXmlM_fail_frame (s : AppModel) (resp : Option XmlResponse)
    (h : (fetchWithXmlM s resp).2 = false) :
    (fetchWithXmlM s resp).1 = s := by
  rcases resp with _ | r
  · rfl
  · by_cases h1 : r.ok = true
    · by_cases h2 : r.text.trim = ""
      · simp [fetchWithXmlM, h1, h2]
      · by_cases h3 : r.doc.parserError = true
        · simp [fetchWithXmlM, h1, h2, h3]
        · rcases he : r.doc.errorElem with _ | msg
          · exfalso
            simp [fetchWithXmlM, h1, h2, h3, he] at h
          · simp [fetchWithXmlM, h1, h2, h3, he]
    · simp [fetchWithXmlM, h1]

/-- C4: a failed fetch attempt — transport failure, non-ok status, empty
body, parse failure, upstream error element, missing envelope or missing
player — never overwrites the previously published snapshot: for both
adapters, `state.data` is replaced only by a run that succeeds, so after
any failed attempt the last published profile is still the current data. -/
theorem c4_failed_fetch_preserves_snapshot (s : AppModel) (inp : ApiInput)
    (extra : ExtraData) (resp : Option XmlResponse) :
    ((fetchWithApiM s inp extra).2 = false →
      (fetchWithApiM s inp extra).1.data = s.data) ∧
    ((fetchWithXmlM s resp).2 = false →
      (fetchWithXmlM s resp).1.data = s.data) :=
  ⟨fun h => by rw [fetchWithApiM_fail_frame s inp extra h],
   fun h => by rw [fetchWithXmlM_fail_frame s resp h]⟩

/-- A previously published snapshot used by the C4 witness. -/
def c4model : AppModel :=
  { data := some (.xml ⟨"7656", "older profile", "", "online", "", [], 0,
      some 0, some 0⟩)
    allGames := [] }

/-- An XML document for the C4 witness response. -/
def c4doc : XmlDoc :=
  ⟨false, none, "", "", "", "", "", "", "", []⟩

/-- Witness for C4: a thrown API transport error and a non-ok XML response
both leave the published snapshot in place. -/
theorem c4_failed_fetch_preserves_snapshot_witness :
    (fetchWithApiM c4model ApiInput.transportError
        ⟨none, none, none, none⟩).1.data = c4model.data ∧
    (fetchWithXmlM c4model (some ⟨false, "body", c4doc⟩)).1.data
      = c4model.data :=
  ⟨(c4_failed_fetch_preserves_snapshot c4model ApiInput.transportError
      ⟨none, none, none, none⟩ (some ⟨false, "body", c4doc⟩)).1 rfl,
   (c4_failed_fetch_preserves_snapshot c4model ApiInput.transportError
      ⟨none, none, none, none⟩ (some ⟨false, "body", c4doc⟩)).2 rfl⟩

/-! ### Claim C5 -/

/-- The player record of the C5 scenario. -/
def c5player : PlayerSummary :=
  ⟨"76561198000000000", "tester", "", 1, none⟩

/-- Two owned games with `playtime_forever` 120 and 0 minutes. -/
def c5games : List ApiGame :=
  [⟨10, "Game A", some 120, some 0, ""⟩,
   ⟨20, "Game B", some 0, some 0, ""⟩]

/-- The profile the authenticated adapter computes for the C5 scenario. -/
def c5profile : ApiProfile :=
  buildApiProfile c5player c5games ⟨none, none, none, none⟩

unseal Rat.mul Rat.inv Rat.add in
/-- Counterexample to C5: the adapter's completion figure for the scenario
is not `0.5` — `fetchWithApi` stores `completionRate` as a percentage,
`(playedGames / totalGames) * 100` (app.js:637), which is `50` here. -/
theorem c5_completion_rate_not_half :
    c5profile.completionRate ≠ (1 / 2 : ℚ) := by
  decide

unseal Rat.mul Rat.inv Rat.add in
/-- C5 (amended): for the authenticated response with 2 owned games with
`playtime_forever` values 120 and 0 minutes, the adapter computes
`totalHours = 2`, `playedGames = 1`, `unplayedGames = 1` (a game is
unplayed exactly when its all-time minutes are zero), and a completion
figure of `50` — the played/total ratio expressed as a percentage. -/
theorem c5_api_scenario :
    c5profile.totalHours = 2 ∧ c5profile.playedGames = 1 ∧
    c5profile.unplayedGames = 1 ∧ c5profile.completionRate = 50 := by
  decide

/-! ### Claim C6 -/

/-- An XML game node of the C6 scenario with the given `hoursOnRecord`
text. -/
def c6node (hrec : String) : XmlGameNode :=
  ⟨some "G", some "#", some "", some "0", some hrec⟩

/-- The public-feed document of the C6 scenario: three most-played games
with `hoursOnRecord` texts "1,234", "10" and "0.5". -/
def c6doc : XmlDoc :=
  ⟨false, none, "76561198000000000", "tester", "", "", "", "online", "",
   [c6node "1,234", c6node "10", c6node "0.5"]⟩

unseal Rat.mul Rat.inv Rat.add in
/-- C6: the XML adapter strips the thousands separator from the
`hoursOnRecord` text before numeric conversion, and for the three-game
scenario it computes `totalHours = 1244.5` (the sum over the returned game
list) and a games count of 3. -/
theorem c6_xml_thousands_separator_scenario :
    jsReplaceFirstComma "1,234" = "1234" ∧
    (parseXmlProfile c6doc).totalHours = some (2489 / 2) ∧
    (parseXmlProfile c6doc).totalGames = 3 := by
  decide

/-! ### Claim C7 -/

/-- Games list backing the C7 enrichment run. -/
def c7gameA : Game :=
  ⟨some 1, "Game A", "", "", some 2, some 0, none⟩

/-- Second game of the C7 enrichment run. -/
def c7gameB : Game :=
  ⟨some 2, "Game B", "", "", some 3, some 0, none⟩

/-- Initial enrichment state for C7: zero accumulators, the two games, a
published profile whose achievement aggregate is still null. -/
def c7init : EnrichSt :=
  ⟨0, 0, 0, 0, [c7gameA, c7gameB], some none⟩

/-- Per-game fetch results of the C7 scenario: achieved 5 of 10, then
achieved 10 of 10. -/
def c7results : List (Nat × Option AchStats) :=
  [(1, some ⟨5, 10, 50⟩), (2, some ⟨10, 10, 100⟩)]

/-- A zeroed enrichment state used to probe the perfect-game condition. -/
def c7probe : EnrichSt :=
  ⟨0, 0, 0, 0, [], none⟩

unseal Rat.mul Rat.inv Rat.add in
/-- C7: running enrichment to completion over a game with achieved=5,
total=10 and a second game with achieved=10, total=10 publishes an
aggregate with `perfectGames = 1`, `totalAchievements = 15`,
`totalPossible = 20` and `avgCompletion = 75` percent; and a processed game
counts as perfect exactly when its achieved count equals its total count
and the total is positive. -/
theorem c7_enrichment_aggregate_scenario :
    (enrichRun 3 (fun _ => 3) c7results c7init).data =
      some (some ⟨15, 20, 1, 2, 75⟩) ∧
    ∀ a : AchStats,
      (processResult c7probe (0, some a)).perfectGames = 1 ↔
        (a.achieved = a.total ∧ 0 < a.total) := by
  constructor
  · decide
  · intro a
    by_cases ht : 0 < a.total
    · by_cases hp : a.achieved = a.total
      · simp [processResult, c7probe, ht, hp]
      · simp [processResult, c7probe, ht, hp]
    · simp [processResult, c7probe, ht]

/-! ### Claim C8 -/

/-- C8: a `refresh()` call while a fetch cycle is already loading is a
no-op — no new fetch starts, the cycle token is not incremented, no
collaborator is invoked, and the orchestrator state is returned exactly as
it was. -/
theorem c8_refresh_while_loading_noop (π : Type) (s : OrchState π)
    (apiOutcome xmlOutcome : Option π) (h : s.isLoading = true) :
    fetchDataM s apiOutcome xmlOutcome = (s, noObs) := by
  simp [fetchDataM, h]

/-- A loading orchestrator state for the C8 witness. -/
def c8state : OrchState Nat :=
  ⟨true, true, 0, true, 7, some 3⟩

/-- Witness for C8 at a concrete loading state. -/
theorem c8_refresh_while_loading_noop_witness :
    fetchDataM c8state (some 5) none = (c8state, noObs) :=
  c8_refresh_while_loading_noop Nat c8state (some 5) none rfl

/-! ### Claim C9 -/

/-- Counterexample to C9: not every outbound request carries an explicit
timeout — the per-game achievement detail request of
`fetchGameAchievements` (app.js:812) is issued through plain `fetch` with
no timeout at all. -/
theorem c9_achievement_request_has_no_timeout :
    ¬ (∀ r ∈ outboundRequests, r.timeoutMs.isSome = true) := by
  decide

/-- C9 (amended): every outbound request other than the per-game
achievement detail requests carries an explicit timeout of 20000 ms (the
owned-games, player-summary and public-XML fetches) or 10000 ms (the three
best-effort auxiliary fetches); the achievement detail requests are issued
without any timeout. -/
theorem c9_timeout_table (r : OutboundRequest) (hr : r ∈ outboundRequests)
    (hk : r.kind ≠ ReqKind.achievementDetail) :
    r.timeoutMs = some 20000 ∨ r.timeoutMs = some 10000 := by
  revert hk
  fin_cases hr <;> decide

/-- Witness for the amended C9 at the owned-games request. -/
theorem c9_timeout_table_witness :
    (⟨ReqKind.ownedGames, some 20000⟩ : OutboundRequest).timeoutMs
        = some 20000 ∨
      (⟨ReqKind.ownedGames, some 20000⟩ : OutboundRequest).timeoutMs
        = some 10000 :=
  c9_timeout_table ⟨ReqKind.ownedGames, some 20000⟩ (by decide) (by decide)

/-! ### Claim C10 -/

/-- C10: for every non-empty list of games selected for display and every
sort key, `renderGamesList` raises a `ReferenceError` for the unbound
identifier `index` referenced by the item template (app.js:1131) — under
strict mode the map callback binds only `game`, so rendering a non-empty
games list never completes normally. -/
theorem c10_render_nonempty_raises_reference_error
    (sortBy : String) (gamesToShow : List Game) (h : gamesToShow ≠ []) :
    renderGamesList sortBy gamesToShow =
      Except.error (JsError.referenceError "index") := by
  rcases gamesToShow with _ | ⟨g, rest⟩
  · exact absurd rfl h
  · rfl

/-- A concrete game for the C10 witness. -/
def c10game : Game :=
  ⟨some 440, "Team Fortress 2", "",
   "https://store.steampowered.com/app/440", some 10, some 0, none⟩

/-- Witness for C10: rendering a one-game list under the default sort
raises the `ReferenceError`. -/
theorem c10_render_nonempty_raises_reference_error_witness :
    renderGamesList "alltime" [c10game] =
      Except.error (JsError.referenceError "index") :=
  c10_render_nonempty_raises_reference_error "alltime" [c10game]
    (List.cons_ne_nil _ _)

end Steam
